import Mathlib

/-!
Shallow embedding of the product-catalog service
(`src/routes/productList.js` together with its schema and config files).

The relational store (PostgreSQL) is modelled as a list of rows plus the
next SERIAL id; the cache (Redis) is modelled as an association list of
entries plus an `up` flag: when the adapter is down every command fails,
mirroring a cache outage (`redisClient.get/setEx/del` rejecting).  Values
stored in the cache by this router are JSON objects or arrays; the
`JSON.parse ∘ JSON.stringify` round trip is the identity on that domain, so
cache values are kept structured.  Each route handler is transcribed
branch by branch from the source and additionally reports `dbCalls`, the
number of `pgPool.query` invocations it executed.
-/

namespace ProductCache

/-- Product row as returned by the store (`id SERIAL PRIMARY KEY`, then the
five user fields; the store-assigned timestamps carry no behavioural
content for the routes and are omitted).  `price DECIMAL(10,2)` is
modelled as an integer number of cents. -/
structure Product where
  id : Nat
  name : String
  description : String
  quantity : Int
  price : Int
  category : String
deriving DecidableEq, Repr

/-- Body of a POST request after `validateBody(productSchema)`:
the five insertable columns. -/
structure ProductInput where
  name : String
  description : String
  quantity : Int
  price : Int
  category : String
deriving DecidableEq, Repr

/-- Relational store: the `products` table plus the SERIAL sequence. -/
structure Store where
  rows : List Product
  nextId : Nat
deriving DecidableEq, Repr

/-- Ordered insert used to realise `ORDER BY id ASC`. -/
def insertById (p : Product) : List Product → List Product
  | [] => [p]
  | q :: qs => if p.id ≤ q.id then p :: q :: qs else q :: insertById p qs

/-- Sort rows by ascending id. -/
def sortById (l : List Product) : List Product := l.foldr insertById []

/-- `SELECT * FROM products ORDER BY id ASC`. -/
def sqlSelectAll (st : Store) : List Product := sortById st.rows

/-- `SELECT * FROM products WHERE id = $1` with an integer parameter. -/
def sqlSelectById (st : Store) (i : Int) : List Product :=
  st.rows.filter (fun p => (p.id : Int) == i)

/-- `INSERT INTO products (name, description, quantity, price, category)
VALUES ($1,$2,$3,$4,$5) RETURNING *`: the store assigns the next SERIAL
id and returns the created row. -/
def sqlInsert (st : Store) (inp : ProductInput) : Product × Store :=
  let p : Product :=
    { id := st.nextId, name := inp.name, description := inp.description,
      quantity := inp.quantity, price := inp.price, category := inp.category }
  (p, { rows := st.rows ++ [p], nextId := st.nextId + 1 })

/-- Body of a PUT request after `validateBody(productUpdateSchema)`; the
zod schema is `productSchema.partial()`, so every field is optional and
`Object.keys(updates)` are exactly the present fields. -/
structure ProductPatch where
  name : Option String
  description : Option String
  quantity : Option Int
  price : Option Int
  category : Option String
deriving DecidableEq, Repr

/-- The patch with no fields (`{}` — it passes `productSchema.partial()`). -/
def emptyPatch : ProductPatch := ⟨none, none, none, none, none⟩

/-- `Object.keys(updates).length` for a validated patch. -/
def ProductPatch.keyCount (u : ProductPatch) : Nat :=
  (if u.name.isSome then 1 else 0) + (if u.description.isSome then 1 else 0) +
  (if u.quantity.isSome then 1 else 0) + (if u.price.isSome then 1 else 0) +
  (if u.category.isSome then 1 else 0)

/-- Apply the `SET` clauses of the dynamic `UPDATE` to one row: only the
supplied fields change, the id never does. -/
def applyPatch (u : ProductPatch) (p : Product) : Product :=
  { p with
    name := u.name.getD p.name,
    description := u.description.getD p.description,
    quantity := u.quantity.getD p.quantity,
    price := u.price.getD p.price,
    category := u.category.getD p.category }

/-- Row selector of `UPDATE products SET ... WHERE id = $n` where the PUT
handler passes `req.params.id` (a string) as the parameter: PostgreSQL
casts the text to the integer column, which for the canonical decimal
strings produced by clients coincides with comparing the decimal
rendering of the row id. -/
def rowMatchesId (idSeg : String) (p : Product) : Bool :=
  toString p.id == idSeg

/-- `UPDATE products SET ... WHERE id = $n RETURNING *`: updates every
matching row and returns the updated rows. -/
def sqlUpdate (st : Store) (idSeg : String) (u : ProductPatch) :
    List Product × Store :=
  let rows2 := st.rows.map (fun p => if rowMatchesId idSeg p then applyPatch u p else p)
  (rows2.filter (rowMatchesId idSeg), { rows := rows2, nextId := st.nextId })

/-- `DELETE FROM products WHERE id = $1 RETURNING *` with an integer
parameter: returns the deleted rows and the remaining table. -/
def sqlDelete (st : Store) (i : Int) : List Product × Store :=
  (st.rows.filter (fun p => (p.id : Int) == i),
   { rows := st.rows.filter (fun p => !((p.id : Int) == i)), nextId := st.nextId })

/-- A value stored in Redis by this router: the serialized form of either
one product (`item` keys) or the product array (the collection key). -/
inductive CacheValue where
  | item : Product → CacheValue
  | coll : List Product → CacheValue
deriving DecidableEq, Repr

/-- One Redis entry: key, expiry (seconds, as given to `setEx`) and value. -/
structure CacheEntry where
  key : String
  ttl : Nat
  value : CacheValue
deriving DecidableEq, Repr

/-- The Redis client: stored entries plus an `up` flag; when `up = false`
every command rejects (cache outage). -/
structure Redis where
  entries : List CacheEntry
  up : Bool
deriving DecidableEq, Repr

/-- Raw key lookup in the cache contents. -/
def redisLookup (r : Redis) (k : String) : Option CacheValue :=
  (r.entries.find? (fun e => e.key == k)).map (fun e => e.value)

/-- `redisClient.get(key)` followed by `data ? JSON.parse(data) : null`
(the `cacheGet` helper): absent keys come back as `null` (`none`). -/
def cacheGet (r : Redis) (k : String) : Except Unit (Option CacheValue) :=
  if r.up then Except.ok (redisLookup r k) else Except.error ()

/-- `redisClient.setEx(key, expirationInSeconds, JSON.stringify(value))`. -/
def redisSetEx (r : Redis) (k : String) (ttl : Nat) (v : CacheValue) :
    Except Unit Redis :=
  if r.up then
    Except.ok { r with entries :=
      ⟨k, ttl, v⟩ :: r.entries.filter (fun e => !(e.key == k)) }
  else Except.error ()

/-- The `cacheSet` helper: `setEx` with the default TTL of 3600 seconds. -/
def cacheSet (r : Redis) (k : String) (v : CacheValue) : Except Unit Redis :=
  redisSetEx r k 3600 v

/-- `redisClient.del(key)`. -/
def redisDel (r : Redis) (k : String) : Except Unit Redis :=
  if r.up then
    Except.ok { r with entries := r.entries.filter (fun e => !(e.key == k)) }
  else Except.error ()

/-- The `invalidateProductCache` helper: `Promise.all` of deleting
`products:<id>` and `products:all`; it fails when the client is down. -/
def invalidateProductCache (r : Redis) (idSeg : String) : Except Unit Redis :=
  match redisDel r ("products:" ++ idSeg) with
  | Except.error e => Except.error e
  | Except.ok r1 => redisDel r1 "products:all"

/-- Truthiness of a parsed cache value, as tested by `if (cached)`.  Every
value this router stores parses to a JS object or array, and those are
always truthy — including the empty array. -/
def jsTruthy : CacheValue → Bool
  | CacheValue.item _ => true
  | CacheValue.coll _ => true

/-- Response payloads produced by the routes. -/
inductive RespBody where
  | arr : List Product → RespBody
  | obj : Product → RespBody
  | msgProduct : String → Product → RespBody
  | err : String → RespBody
deriving DecidableEq, Repr

/-- HTTP status and JSON body of one response. -/
structure HttpResponse where
  status : Nat
  body : RespBody
deriving DecidableEq, Repr

/-- Render a cached value with `res.json(cached)`. -/
def toBody : CacheValue → RespBody
  | CacheValue.item p => RespBody.obj p
  | CacheValue.coll ps => RespBody.arr ps

/-- Result of running one handler: the response, the final store and
cache states, and how many `pgPool.query` calls were made. -/
structure HandlerResult where
  resp : HttpResponse
  store : Store
  redis : Redis
  dbCalls : Nat
deriving DecidableEq, Repr

/-- Value of the accumulated decimal digits. -/
def digitsToNat (ds : List Char) : Nat :=
  ds.foldl (fun a c => 10 * a + (c.toNat - 48)) 0

/-- Longest leading run of decimal digits, `none` when there is none
(that is when `parseInt` yields `NaN`). -/
def parseDigits (cs : List Char) : Option Nat :=
  let ds := cs.takeWhile (fun c => c.isDigit)
  if ds.isEmpty then none else some (digitsToNat ds)

/-- `parseInt(s, 10)`: skip leading whitespace, allow one sign, read the
longest digit run; `NaN` (here `none`) when no digit follows. -/
def parseInt10 (s : String) : Option Int :=
  let cs := s.toList.dropWhile (fun c => c.isWhitespace)
  match cs with
  | '-' :: rest => (parseDigits rest).map (fun n => -(n : Int))
  | '+' :: rest => (parseDigits rest).map (fun n => (n : Int))
  | _ => (parseDigits cs).map (fun n => (n : Int))

/-- Modelled from the spec: the error middleware (`src/middleware/errorHandler.js`
is absent from the sources; `asyncWrapper` forwards a rejected promise to
it).  Spec section 7: every error response is a JSON object with an
`error` message, and server-side failures are reported as 500. -/
def errorMiddlewareResp : HttpResponse :=
  ⟨500, RespBody.err "Internal Server Error"⟩

/-- Miss branch of `GET /products`: query the store, write the array to
the collection key, return it; a `cacheSet` failure is caught by the
handler's own `try/catch` and answered with 500. -/
def getAllMissPath (st : Store) (r : Redis) : HandlerResult :=
  let products := sqlSelectAll st
  match cacheSet r "products:all" (CacheValue.coll products) with
  | Except.error _ => ⟨⟨500, RespBody.err "Internal Server Error"⟩, st, r, 1⟩
  | Except.ok r1 => ⟨⟨200, RespBody.arr products⟩, st, r1, 1⟩

/-- `GET /products`: check `products:all`, serve a truthy cached value,
otherwise fall through to the store; any thrown cache error is caught by
the surrounding `try/catch` and answered with 500. -/
def getAllProducts (st : Store) (r : Redis) : HandlerResult :=
  match cacheGet r "products:all" with
  | Except.error _ => ⟨⟨500, RespBody.err "Internal Server Error"⟩, st, r, 0⟩
  | Except.ok (some cached) =>
      if jsTruthy cached then ⟨⟨200, toBody cached⟩, st, r, 0⟩
      else getAllMissPath st r
  | Except.ok none => getAllMissPath st r

/-- Miss branch of `GET /products/:id`: query the store by id; zero rows
is answered 404 without touching the cache, one row is written to the
item key and returned. -/
def getOneMissPath (i : Int) (st : Store) (r : Redis) : HandlerResult :=
  match sqlSelectById st i with
  | [] => ⟨⟨404, RespBody.err "Product not found"⟩, st, r, 1⟩
  | p :: _ =>
    match cacheSet r ("products:" ++ toString i) (CacheValue.item p) with
    | Except.error _ => ⟨⟨500, RespBody.err "Internal Server Error"⟩, st, r, 1⟩
    | Except.ok r1 => ⟨⟨200, RespBody.obj p⟩, st, r1, 1⟩

/-- `GET /products/:id`: `parseInt` guard answering 400 on `NaN`, then
the read-through on `products:<id>` inside a `try/catch` mapping any
cache or store error to 500. -/
def getProductById (idSeg : String) (st : Store) (r : Redis) : HandlerResult :=
  match parseInt10 idSeg with
  | none => ⟨⟨400, RespBody.err "Invalid product id"⟩, st, r, 0⟩
  | some i =>
    match cacheGet r ("products:" ++ toString i) with
    | Except.error _ => ⟨⟨500, RespBody.err "Internal Server Error"⟩, st, r, 0⟩
    | Except.ok (some cached) =>
        if jsTruthy cached then ⟨⟨200, toBody cached⟩, st, r, 0⟩
        else getOneMissPath i st r
    | Except.ok none => getOneMissPath i st r

/-- `POST /products` after validation: insert, then `cacheSet` the new
item key, then `invalidateProductCache(createdProduct.id)` — in that
order, exactly as the source does; there is no handler-level `try/catch`,
so a cache failure propagates through `asyncWrapper` to the error
middleware after the insert has already happened. -/
def createProduct (inp : ProductInput) (st : Store) (r : Redis) : HandlerResult :=
  let ins := sqlInsert st inp
  let created := ins.1
  let st1 := ins.2
  match cacheSet r ("products:" ++ toString created.id) (CacheValue.item created) with
  | Except.error _ => ⟨errorMiddlewareResp, st1, r, 1⟩
  | Except.ok r1 =>
    match invalidateProductCache r1 (toString created.id) with
    | Except.error _ => ⟨errorMiddlewareResp, st1, r1, 1⟩
    | Except.ok r2 =>
      ⟨⟨201, RespBody.msgProduct "Product created" created⟩, st1, r2, 1⟩

/-- `PUT /products/:id` after validation: falsy-id and empty-patch guards
(both 400, before any store or cache access), then the dynamic `UPDATE`
inside a `try/catch`; on success `invalidateProductCache(id)` then
`cacheSet` of the updated row, a failure of either answered 500. -/
def updateProduct (idSeg : String) (u : ProductPatch) (st : Store) (r : Redis) :
    HandlerResult :=
  if idSeg = "" then ⟨⟨400, RespBody.err "Invalid product id"⟩, st, r, 0⟩
  else if u.keyCount = 0 then
    ⟨⟨400, RespBody.err "No fields provided to update"⟩, st, r, 0⟩
  else
    let upd := sqlUpdate st idSeg u
    match upd.1 with
    | [] => ⟨⟨404, RespBody.err "Product not found"⟩, upd.2, r, 1⟩
    | p :: _ =>
      match invalidateProductCache r idSeg with
      | Except.error _ => ⟨⟨500, RespBody.err "Database error"⟩, upd.2, r, 1⟩
      | Except.ok r1 =>
        match cacheSet r1 ("products:" ++ idSeg) (CacheValue.item p) with
        | Except.error _ => ⟨⟨500, RespBody.err "Database error"⟩, upd.2, r1, 1⟩
        | Except.ok r2 =>
          ⟨⟨200, RespBody.msgProduct "Product updated successfully" p⟩, upd.2, r2, 1⟩

/-- `DELETE /products/:id`: `parseInt` guard (400 on `NaN` or id ≤ 0),
then the `DELETE` inside a `try/catch`; on success
`invalidateProductCache(id)` with no repopulation, a cache failure
answered 500. -/
def deleteProduct (idSeg : String) (st : Store) (r : Redis) : HandlerResult :=
  match parseInt10 idSeg with
  | none => ⟨⟨400, RespBody.err "Invalid product id"⟩, st, r, 0⟩
  | some i =>
    if i ≤ 0 then ⟨⟨400, RespBody.err "Invalid product id"⟩, st, r, 0⟩
    else
      let del := sqlDelete st i
      match del.1 with
      | [] => ⟨⟨404, RespBody.err "Product not found"⟩, del.2, r, 1⟩
      | p :: _ =>
        match invalidateProductCache r (toString i) with
        | Except.error _ => ⟨⟨500, RespBody.err "Database error"⟩, del.2, r, 1⟩
        | Except.ok r1 =>
          ⟨⟨200, RespBody.msgProduct "Product deleted successfully" p⟩, del.2, r1, 1⟩

/-- The zod `productSchema`: the three strings non-empty, `quantity` and
`price` strictly positive. -/
def validProductInput (inp : ProductInput) : Bool :=
  !inp.name.isEmpty && !inp.description.isEmpty &&
  decide (0 < inp.quantity) && decide (0 < inp.price) && !inp.category.isEmpty

/-- The zod `productUpdateSchema` (`productSchema.partial()`): every field
optional, each present field checked as in `productSchema`. -/
def validProductPatch (u : ProductPatch) : Bool :=
  (match u.name with | none => true | some s => !s.isEmpty) &&
  (match u.description with | none => true | some s => !s.isEmpty) &&
  (match u.quantity with | none => true | some q => decide (0 < q)) &&
  (match u.price with | none => true | some q => decide (0 < q)) &&
  (match u.category with | none => true | some s => !s.isEmpty)

/-! Concrete states used by witnesses and counterexamples. -/

/-- Sample POST body (the spec's Pen scenario; price in cents). -/
def penInput : ProductInput := ⟨"Pen", "Blue ink", 100, 150, "Office"⟩

/-- The row the store assigns to `penInput` on a fresh table. -/
def pen1 : Product := ⟨1, "Pen", "Blue ink", 100, 150, "Office"⟩

/-- `pen1` after `{quantity: 5}` was applied. -/
def pen1q5 : Product := ⟨1, "Pen", "Blue ink", 5, 150, "Office"⟩

/-- A fresh, empty table. -/
def emptyStore : Store := ⟨[], 1⟩

/-- A table holding exactly `pen1`. -/
def oneStore : Store := ⟨[pen1], 2⟩

/-- An empty, reachable cache. -/
def cacheUp : Redis := ⟨[], true⟩

/-- An empty cache whose adapter is down: every command rejects. -/
def cacheDown : Redis := ⟨[], false⟩

/-- The patch `{quantity: 5}`. -/
def qtyPatch : ProductPatch := ⟨none, none, some 5, none, none⟩

/-- A cache already holding `pen1` under its item key (as a prior
`getOne(1)` would have left it). -/
def cacheWithPen : Redis := ⟨[⟨"products:1", 3600, CacheValue.item pen1⟩], true⟩

/-- A cache already holding a collection snapshot (as a prior `getAll()`
would have left it). -/
def cacheColl : Redis := ⟨[⟨"products:all", 3600, CacheValue.coll [pen1]⟩], true⟩

/-! Helper lemmas about the cache and the parsing helpers. -/

/-- Every value this router caches is a JS object or array, hence truthy. -/
theorem jsTruthy_eq_true (v : CacheValue) : jsTruthy v = true := by
  cases v <;> rfl

/-- After `del k`, no entry with key `k` is findable. -/
theorem find?_key_filterOut (es : List CacheEntry) (k : String) :
    (es.filter (fun e => !(e.key == k))).find? (fun e => e.key == k) = none := by
  rw [List.find?_eq_none]
  intro x hx
  have hx2 := (List.mem_filter.mp hx).2
  simp only [Bool.not_eq_true'] at hx2
  simp [hx2]

/-- Filtering never resurrects a key that was absent. -/
theorem find?_key_filter_mono (es : List CacheEntry) (p : CacheEntry → Bool)
    (k : String) (h : es.find? (fun e => e.key == k) = none) :
    (es.filter p).find? (fun e => e.key == k) = none := by
  rw [List.find?_eq_none] at h ⊢
  intro x hx
  exact h x (List.mem_filter.mp hx).1

/-- Looking up the key just written by `setEx` returns the written value. -/
theorem redisLookup_cons_self (es : List CacheEntry) (b : Bool) (k : String)
    (ttl : Nat) (v : CacheValue) :
    redisLookup ⟨⟨k, ttl, v⟩ :: es, b⟩ k = some v := by
  simp [redisLookup, List.find?_cons]

/-- Looking up a different key skips the entry just written. -/
theorem redisLookup_cons_ne (es : List CacheEntry) (b : Bool) (k1 k2 : String)
    (ttl : Nat) (v : CacheValue) (h : ¬(k1 = k2)) :
    redisLookup ⟨⟨k1, ttl, v⟩ :: es, b⟩ k2 = redisLookup ⟨es, b⟩ k2 := by
  have hb : (k1 == k2) = false := by simp [h]
  simp [redisLookup, List.find?_cons, hb]

/-- String append is left-cancellative. -/
theorem string_append_left_cancel {a b c : String} (h : a ++ b = a ++ c) :
    b = c := by
  apply String.ext
  have h2 := congrArg String.data h
  simpa using h2

/-- The empty path segment does not parse. -/
theorem parseInt10_empty : parseInt10 "" = none := by decide

/-- The segment `"all"` does not parse. -/
theorem parseInt10_all : parseInt10 "all" = none := by decide

/-- A segment that parses is non-empty. -/
theorem parse_some_ne_empty {s : String} {i : Int}
    (h : parseInt10 s = some i) : ¬(s = "") := by
  intro he
  rw [he, parseInt10_empty] at h
  exact Option.noConfusion h

/-- A segment that parses is not the literal `"all"`. -/
theorem parse_some_ne_all {s : String} {i : Int}
    (h : parseInt10 s = some i) : ¬(s = "all") := by
  intro he
  rw [he, parseInt10_all] at h
  exact Option.noConfusion h

/-- An item key for a segment other than `"all"` differs from the
collection key. -/
theorem item_key_ne_all {s : String} (h : ¬(s = "all")) :
    ¬("products:" ++ s = "products:all") := by
  intro he
  apply h
  apply string_append_left_cancel (a := "products:")
  rw [he]
  decide

/-- Filtering commutes with a conditional map that rewrites exactly the
matching elements, provided the rewrite preserves the filter. -/
theorem filter_map_update (m : Product → Bool) (f : Product → Product)
    (hf : ∀ p, m (f p) = m p) :
    ∀ l : List Product,
      (l.map (fun p => if m p then f p else p)).filter m
        = (l.filter m).map f := by
  intro l
  induction l with
  | nil => rfl
  | cons a l ih =>
    cases ha : m a with
    | false => simp [List.filter_cons, ha, ih]
    | true => simp [List.filter_cons, ha, hf, ih]

/-- `applyPatch` never changes the row id, so the `WHERE` selector is
preserved. -/
theorem rowMatches_applyPatch (idSeg : String) (u : ProductPatch)
    (p : Product) : rowMatchesId idSeg (applyPatch u p) = rowMatchesId idSeg p := rfl

/-- The rows returned by the dynamic `UPDATE` are exactly the matching
rows, patched. -/
theorem sqlUpdate_matched (st : Store) (idSeg : String) (u : ProductPatch) :
    (sqlUpdate st idSeg u).1
      = (st.rows.filter (rowMatchesId idSeg)).map (applyPatch u) := by
  show (st.rows.map
      (fun p => if rowMatchesId idSeg p then applyPatch u p else p)).filter
        (rowMatchesId idSeg)
      = (st.rows.filter (rowMatchesId idSeg)).map (applyPatch u)
  exact filter_map_update (rowMatchesId idSeg) (applyPatch u) (fun p => rfl) st.rows

/-- With a parsed id and a healthy cache, `GET /products/:id` reduces to
a hit on the item key or to the miss path. -/
theorem getProductById_parsed (idSeg : String) (i : Int) (st : Store)
    (r : Redis) (hp : parseInt10 idSeg = some i) (hup : r.up = true) :
    getProductById idSeg st r
      = match redisLookup r ("products:" ++ toString i) with
        | some v => ⟨⟨200, toBody v⟩, st, r, 0⟩
        | none => getOneMissPath i st r := by
  simp only [getProductById, hp, cacheGet, hup, if_true]
  cases hl : redisLookup r ("products:" ++ toString i) with
  | none => simp
  | some v => simp [jsTruthy_eq_true]

/-- The miss path on a healthy cache with the row present: 200 with the
row, one store query, the item key freshly written. -/
theorem getOneMissPath_found (i : Int) (st : Store) (r : Redis) (p : Product)
    (rest : List Product) (hup : r.up = true)
    (hsel : sqlSelectById st i = p :: rest) :
    getOneMissPath i st r
      = ⟨⟨200, RespBody.obj p⟩, st,
         ⟨⟨"products:" ++ toString i, 3600, CacheValue.item p⟩ ::
            r.entries.filter (fun e => !(e.key == "products:" ++ toString i)),
          true⟩, 1⟩ := by
  simp only [getOneMissPath, hsel, cacheSet, redisSetEx, hup, if_true]

/-- C1: the claim states that after a successful `create(fields)` the new
record is left stored under its item cache key (only the collection key
being evicted), so that an immediate `getOne(new id)` is served from the
cache without a store read.  The code instead calls
`invalidateProductCache(createdProduct.id)` AFTER `cacheSet`, deleting the
item key it has just written: on a fresh store and healthy empty cache,
create returns 201 but both keys end up absent, and the following
`getOne("1")` performs a store read (`dbCalls = 1`), repopulating the key
itself.  This evaluates the code at that failing input. -/
theorem create_then_getOne_hits_store :
    (createProduct penInput emptyStore cacheUp).resp
        = ⟨201, RespBody.msgProduct "Product created" pen1⟩ ∧
    (createProduct penInput emptyStore cacheUp).store = ⟨[pen1], 2⟩ ∧
    redisLookup (createProduct penInput emptyStore cacheUp).redis
        "products:1" = none ∧
    redisLookup (createProduct penInput emptyStore cacheUp).redis
        "products:all" = none ∧
    getProductById "1" (createProduct penInput emptyStore cacheUp).store
        (createProduct penInput emptyStore cacheUp).redis
      = ⟨⟨200, RespBody.obj pen1⟩, ⟨[pen1], 2⟩,
         ⟨[⟨"products:1", 3600, CacheValue.item pen1⟩], true⟩, 1⟩ := by decide

/-- C5 counterexample: the claim states a cache adapter failure during a
read is tolerated by falling back to the store.  With the product present
in the store and the cache adapter down, both `getOne` and `getAll`
answer 500 with zero store queries: the code's `try/catch` wraps the
`cacheGet` together with the store query, so the store is never reached. -/
theorem read_cache_failure_surfaces_500 :
    sqlSelectById oneStore 1 = [pen1] ∧
    getProductById "1" oneStore cacheDown
      = ⟨⟨500, RespBody.err "Internal Server Error"⟩, oneStore, cacheDown, 0⟩ ∧
    getAllProducts oneStore cacheDown
      = ⟨⟨500, RespBody.err "Internal Server Error"⟩, oneStore, cacheDown, 0⟩ := by
  decide

/-- C5 amended: when the cache adapter fails during a read, `getOne` (for
any id segment that parses) and `getAll` do NOT fall back to the store:
they return 500 Internal Server Error, perform no store query, and leave
store and cache unchanged — the outage degrades correctness of reads into
errors, not into always-miss behaviour. -/
theorem read_cache_failure_no_store_fallback :
    ∀ (idSeg : String) (i : Int) (st : Store) (r : Redis),
      r.up = false → parseInt10 idSeg = some i →
      getProductById idSeg st r
        = ⟨⟨500, RespBody.err "Internal Server Error"⟩, st, r, 0⟩ ∧
      getAllProducts st r
        = ⟨⟨500, RespBody.err "Internal Server Error"⟩, st, r, 0⟩ := by
  intro idSeg i st r hup hp
  constructor
  · simp [getProductById, hp, cacheGet, hup]
  · simp [getAllProducts, cacheGet, hup]

/-- Witness for the amended C5 theorem at a concrete input. -/
theorem read_cache_failure_no_store_fallback_witness :
    getProductById "2" oneStore cacheDown
      = ⟨⟨500, RespBody.err "Internal Server Error"⟩, oneStore, cacheDown, 0⟩ ∧
    getAllProducts oneStore cacheDown
      = ⟨⟨500, RespBody.err "Internal Server Error"⟩, oneStore, cacheDown, 0⟩ :=
  read_cache_failure_no_store_fallback "2" 2 oneStore cacheDown rfl (by decide)

/-- C6 counterexample: the claim states that when the store mutation of a
write succeeds, a subsequent cache failure does not fail the overall
request.  With the cache adapter down, `update` and `delete` perform
their store mutation and then answer 500 Database error: the mutation is
kept (the row is patched, respectively gone) but the request fails. -/
theorem write_cache_failure_fails_request :
    (updateProduct "1" qtyPatch oneStore cacheDown).resp
      = ⟨500, RespBody.err "Database error"⟩ ∧
    (updateProduct "1" qtyPatch oneStore cacheDown).store.rows = [pen1q5] ∧
    (deleteProduct "1" oneStore cacheDown).resp
      = ⟨500, RespBody.err "Database error"⟩ ∧
    (deleteProduct "1" oneStore cacheDown).store.rows = [] := by decide

/-- C6 amended: for every write whose store mutation succeeds, a cache
adapter failure during invalidation/population makes the request fail
(500 Database error from the update/delete handlers' own `try/catch`, the
error middleware's 500 for create, whose handler has none), while the
store mutation itself is kept — the final store state is exactly the
mutated one, never rolled back. -/
theorem write_cache_failure_store_not_rolled_back :
    ∀ (st : Store) (r : Redis), r.up = false →
      (∀ (idSeg : String) (u : ProductPatch) (p : Product) (rest : List Product),
        ¬(idSeg = "") → ¬(u.keyCount = 0) →
        (sqlUpdate st idSeg u).1 = p :: rest →
        updateProduct idSeg u st r
          = ⟨⟨500, RespBody.err "Database error"⟩, (sqlUpdate st idSeg u).2, r, 1⟩) ∧
      (∀ (idSeg : String) (i : Int) (p : Product) (rest : List Product),
        parseInt10 idSeg = some i → ¬(i ≤ 0) →
        (sqlDelete st i).1 = p :: rest →
        deleteProduct idSeg st r
          = ⟨⟨500, RespBody.err "Database error"⟩, (sqlDelete st i).2, r, 1⟩) ∧
      (∀ inp : ProductInput,
        createProduct inp st r = ⟨errorMiddlewareResp, (sqlInsert st inp).2, r, 1⟩) := by
  intro st r hup
  refine ⟨?_, ?_, ?_⟩
  · intro idSeg u p rest h1 h2 h3
    simp [updateProduct, h1, h2, h3, invalidateProductCache, redisDel, hup]
  · intro idSeg i p rest hp hle h3
    simp [deleteProduct, hp, hle, h3, invalidateProductCache, redisDel, hup]
  · intro inp
    simp [createProduct, cacheSet, redisSetEx, hup]

/-- Witness for the amended C6 theorem at a concrete input. -/
theorem write_cache_failure_store_not_rolled_back_witness :
    updateProduct "1" qtyPatch oneStore cacheDown
      = ⟨⟨500, RespBody.err "Database error"⟩,
         (sqlUpdate oneStore "1" qtyPatch).2, cacheDown, 1⟩ ∧
    createProduct penInput oneStore cacheDown
      = ⟨errorMiddlewareResp, (sqlInsert oneStore penInput).2, cacheDown, 1⟩ :=
  ⟨(write_cache_failure_store_not_rolled_back oneStore cacheDown rfl).1
      "1" qtyPatch pen1q5 [] (by decide) (by decide) (by decide),
   (write_cache_failure_store_not_rolled_back oneStore cacheDown rfl).2.2 penInput⟩

/-- C7: the empty patch `{}` passes the zod update schema
(`productSchema.partial()`), and for every id segment the PUT handler
rejects it with 400 from its own guards — before the `UPDATE` is built
and before any cache command — leaving store and cache exactly unchanged
and performing no store query. -/
theorem empty_patch_rejected_before_store_and_cache :
    ∀ (idSeg : String) (st : Store) (r : Redis),
      validProductPatch emptyPatch = true ∧
      (updateProduct idSeg emptyPatch st r).resp.status = 400 ∧
      (updateProduct idSeg emptyPatch st r).store = st ∧
      (updateProduct idSeg emptyPatch st r).redis = r ∧
      (updateProduct idSeg emptyPatch st r).dbCalls = 0 := by
  intro idSeg st r
  refine ⟨by decide, ?_⟩
  unfold updateProduct
  by_cases h : idSeg = "" <;>
    simp [h, emptyPatch, ProductPatch.keyCount]

/-- C9: for every id path segment on which `parseInt` yields `NaN`,
`GET /products/:id` answers 400 `Invalid product id` before any cache or
store access: the state is returned untouched with zero store queries. -/
theorem non_numeric_id_rejected_400 :
    ∀ (idSeg : String) (st : Store) (r : Redis),
      parseInt10 idSeg = none →
      getProductById idSeg st r
        = ⟨⟨400, RespBody.err "Invalid product id"⟩, st, r, 0⟩ := by
  intro idSeg st r h
  simp [getProductById, h]

/-- Witness for C9 at the spec's scenario input `"abc"`. -/
theorem non_numeric_id_rejected_400_witness :
    getProductById "abc" oneStore cacheUp
      = ⟨⟨400, RespBody.err "Invalid product id"⟩, oneStore, cacheUp, 0⟩ :=
  non_numeric_id_rejected_400 "abc" oneStore cacheUp (by decide)

/-- C2: with a healthy cache, (a) whenever the item key for the parsed id
holds a value, `getOne` answers 200 with exactly that value, leaving
store and cache untouched and issuing zero store queries; (b) for every
id present in the store, the second of two consecutive `getOne` calls
returns the same response and state as the first with zero store
queries — whether the first call was itself a hit or the miss that
populated the key. -/
theorem getOne_cache_hit_no_store_read :
    ∀ (idSeg : String) (i : Int) (st : Store) (r : Redis),
      r.up = true → parseInt10 idSeg = some i →
      (∀ v, redisLookup r ("products:" ++ toString i) = some v →
          getProductById idSeg st r = ⟨⟨200, toBody v⟩, st, r, 0⟩) ∧
      (¬(sqlSelectById st i = []) →
        getProductById idSeg ((getProductById idSeg st r).store)
            ((getProductById idSeg st r).redis)
          = ⟨(getProductById idSeg st r).resp, (getProductById idSeg st r).store,
             (getProductById idSeg st r).redis, 0⟩) := by
  intro idSeg i st r hup hp
  have hred := getProductById_parsed idSeg i st r hp hup
  have hhit : ∀ v, redisLookup r ("products:" ++ toString i) = some v →
      getProductById idSeg st r = ⟨⟨200, toBody v⟩, st, r, 0⟩ := by
    intro v hv
    rw [hred, hv]
  refine ⟨hhit, ?_⟩
  intro hne
  cases hl : redisLookup r ("products:" ++ toString i) with
  | some v =>
    have h1 := hhit v hl
    rw [h1]
    simpa using hhit v hl
  | none =>
    obtain ⟨p, rest, hrows⟩ : ∃ p rest, sqlSelectById st i = p :: rest := by
      cases hsel : sqlSelectById st i with
      | nil => exact absurd hsel hne
      | cons p rest => exact ⟨p, rest, rfl⟩
    have h1 : getProductById idSeg st r
        = ⟨⟨200, RespBody.obj p⟩, st,
           ⟨⟨"products:" ++ toString i, 3600, CacheValue.item p⟩ ::
              r.entries.filter (fun e => !(e.key == "products:" ++ toString i)),
            true⟩, 1⟩ := by
      rw [hred, hl]
      exact getOneMissPath_found i st r p rest hup hrows
    have h2 := getProductById_parsed idSeg i st
        ⟨⟨"products:" ++ toString i, 3600, CacheValue.item p⟩ ::
           r.entries.filter (fun e => !(e.key == "products:" ++ toString i)),
         true⟩ hp rfl
    rw [redisLookup_cons_self] at h2
    rw [h1]
    simpa using h2

/-- Witness for C2: a hit on a pre-populated cache, and the two-call
idempotence starting from an empty cache. -/
theorem getOne_cache_hit_no_store_read_witness :
    getProductById "1" oneStore cacheWithPen
      = ⟨⟨200, toBody (CacheValue.item pen1)⟩, oneStore, cacheWithPen, 0⟩ ∧
    getProductById "1" ((getProductById "1" oneStore cacheUp).store)
        ((getProductById "1" oneStore cacheUp).redis)
      = ⟨(getProductById "1" oneStore cacheUp).resp,
         (getProductById "1" oneStore cacheUp).store,
         (getProductById "1" oneStore cacheUp).redis, 0⟩ :=
  ⟨(getOne_cache_hit_no_store_read "1" 1 oneStore cacheWithPen rfl (by decide)).1
      (CacheValue.item pen1) (by decide),
   (getOne_cache_hit_no_store_read "1" 1 oneStore cacheUp rfl (by decide)).2
      (by decide)⟩

/-- C3: for a canonically-addressed existing id (the segment parses and
is the decimal rendering of the id) and a non-empty patch on a healthy
cache, `update` answers 200 with the patched record, leaves the item key
holding exactly the patched record, leaves the collection key evicted,
and a following `getOne` returns the patched record from the cache with
zero store queries — regardless of what the cache held for that key
before the update (the quantified `r` may hold any stale value). -/
theorem update_then_getOne_returns_patched :
    ∀ (idSeg : String) (i : Int) (u : ProductPatch) (p0 : Product)
      (st : Store) (r : Redis),
      r.up = true → parseInt10 idSeg = some i → toString i = idSeg →
      ¬(u.keyCount = 0) →
      st.rows.filter (rowMatchesId idSeg) = [p0] →
      (updateProduct idSeg u st r).resp
          = ⟨200, RespBody.msgProduct "Product updated successfully"
                    (applyPatch u p0)⟩ ∧
      redisLookup (updateProduct idSeg u st r).redis ("products:" ++ idSeg)
          = some (CacheValue.item (applyPatch u p0)) ∧
      redisLookup (updateProduct idSeg u st r).redis "products:all" = none ∧
      getProductById idSeg ((updateProduct idSeg u st r).store)
          ((updateProduct idSeg u st r).redis)
        = ⟨⟨200, RespBody.obj (applyPatch u p0)⟩,
           (updateProduct idSeg u st r).store,
           (updateProduct idSeg u st r).redis, 0⟩ := by
  intro idSeg i u p0 st r hup hp hk hkc hfil
  have hne := parse_some_ne_empty hp
  have hnall := parse_some_ne_all hp
  have hmatched : (sqlUpdate st idSeg u).1 = [applyPatch u p0] := by
    rw [sqlUpdate_matched, hfil]
    rfl
  have hstep : updateProduct idSeg u st r
      = ⟨⟨200, RespBody.msgProduct "Product updated successfully"
            (applyPatch u p0)⟩,
         (sqlUpdate st idSeg u).2,
         ⟨⟨"products:" ++ idSeg, 3600, CacheValue.item (applyPatch u p0)⟩ ::
            (((r.entries.filter (fun e => !(e.key == "products:" ++ idSeg))).filter
               (fun e => !(e.key == "products:all"))).filter
              (fun e => !(e.key == "products:" ++ idSeg))), true⟩, 1⟩ := by
    simp only [updateProduct, hne, hkc, if_false, hmatched, invalidateProductCache,
      redisDel, cacheSet, redisSetEx, hup, if_true, ite_false, ite_true]
  have hkne : ¬("products:" ++ idSeg = "products:all") := item_key_ne_all hnall
  rw [hstep]
  refine ⟨rfl, ?_, ?_, ?_⟩
  · exact redisLookup_cons_self _ _ _ _ _
  · rw [redisLookup_cons_ne _ _ _ _ _ _ hkne]
    simp only [redisLookup]
    rw [find?_key_filter_mono _ _ _
      (find?_key_filterOut (r.entries.filter
        (fun e => !(e.key == "products:" ++ idSeg))) "products:all")]
    rfl
  · have h2 := getProductById_parsed idSeg i (sqlUpdate st idSeg u).2
        ⟨⟨"products:" ++ idSeg, 3600, CacheValue.item (applyPatch u p0)⟩ ::
           (((r.entries.filter (fun e => !(e.key == "products:" ++ idSeg))).filter
              (fun e => !(e.key == "products:all"))).filter
             (fun e => !(e.key == "products:" ++ idSeg))), true⟩ hp rfl
    rw [hk, redisLookup_cons_self] at h2
    simpa using h2

/-- Witness for C3: update `{quantity: 5}` of product 1 starting from a
cache that still holds the pre-update record. -/
theorem update_then_getOne_returns_patched_witness :
    (updateProduct "1" qtyPatch oneStore cacheWithPen).resp
        = ⟨200, RespBody.msgProduct "Product updated successfully"
                  (applyPatch qtyPatch pen1)⟩ ∧
    redisLookup (updateProduct "1" qtyPatch oneStore cacheWithPen).redis
        ("products:" ++ "1")
        = some (CacheValue.item (applyPatch qtyPatch pen1)) ∧
    redisLookup (updateProduct "1" qtyPatch oneStore cacheWithPen).redis
        "products:all" = none ∧
    getProductById "1" ((updateProduct "1" qtyPatch oneStore cacheWithPen).store)
        ((updateProduct "1" qtyPatch oneStore cacheWithPen).redis)
      = ⟨⟨200, RespBody.obj (applyPatch qtyPatch pen1)⟩,
         (updateProduct "1" qtyPatch oneStore cacheWithPen).store,
         (updateProduct "1" qtyPatch oneStore cacheWithPen).redis, 0⟩ :=
  update_then_getOne_returns_patched "1" 1 qtyPatch pen1 oneStore cacheWithPen
    rfl (by decide) (by decide) (by decide) (by decide)

/-- C4: every create answering 201, every canonically-addressed update
answering 200 and every delete answering 200 leaves the collection key
`products:all` absent from the cache; consequently (last conjunct) a
`getAll` on any state with that key absent and a healthy cache issues a
store query and serves the current snapshot, never a cached one. -/
theorem mutations_evict_collection_key :
    ∀ (st : Store) (r : Redis),
      (∀ inp : ProductInput, (createProduct inp st r).resp.status = 201 →
          redisLookup (createProduct inp st r).redis "products:all" = none) ∧
      (∀ (idSeg : String) (i : Int) (u : ProductPatch),
          parseInt10 idSeg = some i →
          (updateProduct idSeg u st r).resp.status = 200 →
          redisLookup (updateProduct idSeg u st r).redis "products:all" = none) ∧
      (∀ idSeg : String, (deleteProduct idSeg st r).resp.status = 200 →
          redisLookup (deleteProduct idSeg st r).redis "products:all" = none) ∧
      (∀ (st2 : Store) (r2 : Redis), r2.up = true →
          redisLookup r2 "products:all" = none →
          (getAllProducts st2 r2).resp = ⟨200, RespBody.arr (sqlSelectAll st2)⟩ ∧
          (getAllProducts st2 r2).dbCalls = 1) := by
  intro st r
  refine ⟨?_, ?_, ?_, ?_⟩
  · intro inp h201
    cases hu : r.up with
    | false =>
      exfalso
      simp [createProduct, cacheSet, redisSetEx, hu, errorMiddlewareResp] at h201
    | true =>
      simp only [createProduct, cacheSet, redisSetEx, invalidateProductCache,
        redisDel, hu, if_true, ite_true]
      simp only [redisLookup]
      rw [find?_key_filterOut]
      rfl
  · intro idSeg i u hp h200
    have hne := parse_some_ne_empty hp
    have hnall := parse_some_ne_all hp
    by_cases hkc : u.keyCount = 0
    · exfalso
      simp [updateProduct, hne, hkc] at h200
    cases hm : (sqlUpdate st idSeg u).1 with
    | nil =>
      exfalso
      simp [updateProduct, hne, hkc, hm] at h200
    | cons p rest =>
      cases hu : r.up with
      | false =>
        exfalso
        simp [updateProduct, hne, hkc, hm, invalidateProductCache, redisDel,
          hu] at h200
      | true =>
        have hkne := item_key_ne_all hnall
        simp only [updateProduct, hne, hkc, hm, invalidateProductCache, redisDel,
          cacheSet, redisSetEx, hu, if_true, if_false, ite_true, ite_false]
        rw [redisLookup_cons_ne _ _ _ _ _ _ hkne]
        simp only [redisLookup]
        rw [find?_key_filter_mono _ _ _
          (find?_key_filterOut (r.entries.filter
            (fun e => !(e.key == "products:" ++ idSeg))) "products:all")]
        rfl
  · intro idSeg h200
    cases hp : parseInt10 idSeg with
    | none =>
      exfalso
      simp [deleteProduct, hp] at h200
    | some i =>
      by_cases hle : i ≤ 0
      · exfalso
        simp [deleteProduct, hp, hle] at h200
      cases hm : (sqlDelete st i).1 with
      | nil =>
        exfalso
        simp [deleteProduct, hp, hle, hm] at h200
      | cons p rest =>
        cases hu : r.up with
        | false =>
          exfalso
          simp [deleteProduct, hp, hle, hm, invalidateProductCache, redisDel,
            hu] at h200
        | true =>
          simp only [deleteProduct, hp, hle, hm, invalidateProductCache,
            redisDel, hu, if_true, if_false, ite_true, ite_false]
          simp only [redisLookup]
          rw [find?_key_filterOut]
          rfl
  · intro st2 r2 hup2 hl2
    constructor <;>
      simp [getAllProducts, cacheGet, hup2, hl2, getAllMissPath, cacheSet,
        redisSetEx]

/-- Witness for C4: each mutation run against a cache holding a stale
collection snapshot, plus the fresh `getAll` after eviction. -/
theorem mutations_evict_collection_key_witness :
    redisLookup (createProduct penInput emptyStore cacheColl).redis
      "products:all" = none ∧
    redisLookup (updateProduct "1" qtyPatch oneStore cacheColl).redis
      "products:all" = none ∧
    redisLookup (deleteProduct "1" oneStore cacheColl).redis
      "products:all" = none ∧
    ((getAllProducts oneStore cacheUp).resp
        = ⟨200, RespBody.arr (sqlSelectAll oneStore)⟩ ∧
     (getAllProducts oneStore cacheUp).dbCalls = 1) :=
  ⟨(mutations_evict_collection_key emptyStore cacheColl).1 penInput (by decide),
   (mutations_evict_collection_key oneStore cacheColl).2.1 "1" 1 qtyPatch
     (by decide) (by decide),
   (mutations_evict_collection_key oneStore cacheColl).2.2.1 "1" (by decide),
   (mutations_evict_collection_key oneStore cacheUp).2.2.2 oneStore cacheUp
     rfl (by decide)⟩

/-- C8: with a healthy cache, for an id absent from the store (and, as on
every state the nominal protocol can reach, absent from the cache),
`getOne` answers 404 Product not found after one store query and returns
the store and the cache exactly as they were — no cache write and no
cache delete — and a repeated lookup reaches the store again (`dbCalls`
is 1 on both calls: negative caching is never performed). -/
theorem getOne_absent_id_leaves_cache_untouched :
    ∀ (idSeg : String) (i : Int) (st : Store) (r : Redis),
      r.up = true → parseInt10 idSeg = some i →
      sqlSelectById st i = [] →
      redisLookup r ("products:" ++ toString i) = none →
      getProductById idSeg st r
        = ⟨⟨404, RespBody.err "Product not found"⟩, st, r, 1⟩ ∧
      getProductById idSeg ((getProductById idSeg st r).store)
          ((getProductById idSeg st r).redis)
        = ⟨⟨404, RespBody.err "Product not found"⟩, st, r, 1⟩ := by
  intro idSeg i st r hup hp hsel hl
  have h1 : getProductById idSeg st r
      = ⟨⟨404, RespBody.err "Product not found"⟩, st, r, 1⟩ := by
    rw [getProductById_parsed idSeg i st r hp hup, hl]
    simp [getOneMissPath, hsel]
  refine ⟨h1, ?_⟩
  rw [h1]
  simpa using h1

/-- Witness for C8: id 9 against a store holding only id 1. -/
theorem getOne_absent_id_leaves_cache_untouched_witness :
    getProductById "9" oneStore cacheUp
      = ⟨⟨404, RespBody.err "Product not found"⟩, oneStore, cacheUp, 1⟩ ∧
    getProductById "9" ((getProductById "9" oneStore cacheUp).store)
        ((getProductById "9" oneStore cacheUp).redis)
      = ⟨⟨404, RespBody.err "Product not found"⟩, oneStore, cacheUp, 1⟩ :=
  getOne_absent_id_leaves_cache_untouched "9" 9 oneStore cacheUp rfl
    (by decide) (by decide) (by decide)

/-- C10: on an empty store with a healthy cache not yet holding the
collection key, `getAll` answers 200 with the empty array after one
store query and writes the empty array under `products:all`; the second
`getAll` is then served from the cache — the empty array is truthy in
JS, so it counts as a hit — with zero store queries and an unchanged
cache. -/
theorem getAll_empty_store_cached_hit :
    ∀ (st : Store) (r : Redis),
      r.up = true → sqlSelectAll st = [] →
      redisLookup r "products:all" = none →
      (getAllProducts st r).resp = ⟨200, RespBody.arr []⟩ ∧
      (getAllProducts st r).store = st ∧
      (getAllProducts st r).dbCalls = 1 ∧
      redisLookup (getAllProducts st r).redis "products:all"
        = some (CacheValue.coll []) ∧
      getAllProducts ((getAllProducts st r).store) ((getAllProducts st r).redis)
        = ⟨⟨200, RespBody.arr []⟩, st, (getAllProducts st r).redis, 0⟩ := by
  intro st r hup hsel hl
  have h1 : getAllProducts st r
      = ⟨⟨200, RespBody.arr []⟩, st,
         ⟨⟨"products:all", 3600, CacheValue.coll []⟩ ::
            r.entries.filter (fun e => !(e.key == "products:all")), true⟩, 1⟩ := by
    simp only [getAllProducts, cacheGet, hup, if_true, ite_true, hl,
      getAllMissPath, hsel, cacheSet, redisSetEx]
  rw [h1]
  refine ⟨rfl, rfl, rfl, redisLookup_cons_self _ _ _ _ _, ?_⟩
  simp [getAllProducts, cacheGet, redisLookup_cons_self, jsTruthy_eq_true, toBody]

/-- Witness for C10: fresh empty store, fresh empty healthy cache. -/
theorem getAll_empty_store_cached_hit_witness :
    (getAllProducts emptyStore cacheUp).resp = ⟨200, RespBody.arr []⟩ ∧
    (getAllProducts emptyStore cacheUp).store = emptyStore ∧
    (getAllProducts emptyStore cacheUp).dbCalls = 1 ∧
    redisLookup (getAllProducts emptyStore cacheUp).redis "products:all"
      = some (CacheValue.coll []) ∧
    getAllProducts ((getAllProducts emptyStore cacheUp).store)
        ((getAllProducts emptyStore cacheUp).redis)
      = ⟨⟨200, RespBody.arr []⟩, emptyStore,
         (getAllProducts emptyStore cacheUp).redis, 0⟩ :=
  getAll_empty_store_cached_hit emptyStore cacheUp rfl (by decide) (by decide)

end ProductCache
